import Mathlib

/-!
Verification development for the phone-blocklist-processor repository.

The repository is a Next.js application (upload / process / download API
routes under src/app/api) that delegates the actual phone-number pipeline
to an external Python script (python_scripts/phone_processor_api.py) which
is not part of the checked-in sources.  The API routes are embedded here
from their TypeScript sources; the pipeline itself is modelled from the
specification where noted.
-/

namespace PBP

/-! ## Core pipeline (normalize / dedupe / filter / stats)

Modelled from the spec: the processing pipeline of
python_scripts/phone_processor_api.py is invoked by
src/src/app/api/process/route.ts but the script itself is absent from the
sources, so its behaviour is taken from the specification (sections 3, 4.1,
4.2, 4.3, 4.4, 4.6).
-/

/-- Modelled from the spec: the fixed default country code (section 4.1,
"the fixed default country code (configured constant, e.g., 40)"). -/
def defaultCountryCode : List Char := ['4', '0']

/-- Modelled from the spec: the expected total digit count of a full
national number written with country code (section 4.1 step 4); the
default code 40 plus nine subscriber digits. -/
def expectedTotalLength : Nat := 11

/-- PhoneValue from the spec data model (section 3):
raw value, canonical E.164 form, validity flag. -/
structure PhoneValue where
  raw : String
  canonical : Option String
  valid : Bool
deriving Repr, DecidableEq

/-- Modelled from the spec: section 4.1 step 2 — given the digit string of
a number taken as a full international number, validate the digit count
(plausible range 8-15) and on success produce the canonical `+digits`. -/
def intlCanonical (raw : String) (digits : List Char) : PhoneValue :=
  if 8 ≤ digits.length && digits.length ≤ 15 then
    ⟨raw, some (String.mk ('+' :: digits)), true⟩
  else
    ⟨raw, none, false⟩

/-- Modelled from the spec: PhoneNormalizer (section 4.1).
Steps: strip to digits and a single leading plus sign; leading plus means a
full international number; a leading national trunk 0 is replaced by the
default country code; a digit string already starting with the default
country code at the expected total length is canonical directly; otherwise
a bare local number gets the default country code; empty or letter-bearing
input is invalid. -/
def normalizePhone (raw : String) : PhoneValue :=
  let chars := raw.data
  let core := chars.dropWhile (fun c => c.isWhitespace)
  if core.isEmpty then
    ⟨raw, none, false⟩
  else if chars.any (fun c => c.isAlpha) then
    ⟨raw, none, false⟩
  else
    let digits := chars.filter (fun c => c.isDigit)
    if core.head? = some '+' then
      intlCanonical raw digits
    else
      match digits with
      | '0' :: rest => intlCanonical raw (defaultCountryCode ++ rest)
      | _ =>
        if defaultCountryCode.isPrefixOf digits && digits.length == expectedTotalLength then
          ⟨raw, some (String.mk ('+' :: digits)), true⟩
        else
          intlCanonical raw (defaultCountryCode ++ digits)

/-- Insert a canonical number into the blocklist set, keeping entries
distinct (the set semantics of BlocklistSet, spec section 3). -/
def insertDistinct (s : List String) (c : String) : List String :=
  if s.contains c then s else s ++ [c]

/-- Modelled from the spec: BlocklistProvider (section 4.2) — every entry
returned by the remote source is passed through the same canonicalization
used for input rows; the result is the set of distinct canonical entries. -/
def buildBlocklist (entries : List String) : List String :=
  (entries.filterMap (fun e => (normalizePhone e).canonical)).foldl insertDistinct []

/-- Modelled from the spec: Deduplicator (section 4.3) — walk the rows in
order with the set of canonical numbers already seen among valid rows;
a valid row whose canonical number was seen is removed and counted, rows
with no canonical key are always kept.  Returns (kept rows, removed count). -/
def dedupeRows : List PhoneValue → List String → List PhoneValue × Nat
  | [], _ => ([], 0)
  | pv :: rest, seen =>
    match pv.canonical with
    | some c =>
      if c ∈ seen then
        ((dedupeRows rest seen).1, (dedupeRows rest seen).2 + 1)
      else
        (pv :: (dedupeRows rest (c :: seen)).1, (dedupeRows rest (c :: seen)).2)
    | none => (pv :: (dedupeRows rest seen).1, (dedupeRows rest seen).2)

/-- Modelled from the spec: FilterEngine blocking predicate (section 4.4) —
a row is blocked iff it is valid and its canonical number is in the
blocklist; invalid rows are never blocked. -/
def isBlocked (blocklist : List String) (pv : PhoneValue) : Bool :=
  match pv.canonical with
  | some c => blocklist.contains c
  | none => false

/-- ProcessingStats of the spec data model (section 3), without the
wall-clock processingTimeSeconds field (timing is not modelled).
Field order: totalRows, validNumbers, blockedNumbers, finalRows,
blocklistSize, duplicatesRemoved. -/
structure PipelineStats where
  totalRows : Nat
  validNumbers : Nat
  blockedNumbers : Nat
  finalRows : Nat
  blocklistSize : Nat
  duplicatesRemoved : Nat
deriving Repr, DecidableEq

/-- Modelled from the spec: the normalize → dedupe → filter pipeline over
the phone column values of the input rows (sections 4.1-4.4, 4.6), with
the StatsAggregator counters.  Returns the stats and the kept rows. -/
def runPipeline (rows : List String) (blocklistEntries : List String) :
    PipelineStats × List PhoneValue :=
  let pvs := rows.map normalizePhone
  let bl := buildBlocklist blocklistEntries
  let deduped := dedupeRows pvs []
  let blocked := deduped.1.filter (fun pv => isBlocked bl pv)
  let kept := deduped.1.filter (fun pv => !isBlocked bl pv)
  (⟨rows.length,
    (pvs.filter (fun pv => pv.valid)).length,
    blocked.length,
    kept.length,
    bl.length,
    deduped.2⟩, kept)

/-! ## Orchestrator error propagation -/

/-- Error kinds of the spec (section 7). -/
inductive ErrorKind where
  | blocklistUnavailable
  | inputUnreadable
  | writeFailure
deriving Repr, DecidableEq

/-- Modelled from the spec: PipelineOrchestrator (sections 4.2, 4.6) — the
blocklist fetch happens before filtering; when the fetch fails the whole
job fails with BlocklistUnavailable and nothing further runs. -/
def runJob (fetchResult : Except String (List String)) (rows : List String) :
    Except ErrorKind (PipelineStats × List PhoneValue) :=
  match fetchResult with
  | .error _ => .error .blocklistUnavailable
  | .ok entries => .ok (runPipeline rows entries)

/-- Modelled from the spec: the written output artifact of a job (section
4.6, "either the artifact is fully written or not created at all") — the
kept rows when the job completed, nothing when it failed. -/
def jobArtifact (r : Except ErrorKind (PipelineStats × List PhoneValue)) :
    Option (List PhoneValue) :=
  match r with
  | .ok p => some p.2
  | .error _ => none

/-! ## Process route (src/src/app/api/process/route.ts) -/

/-- The JSON request body sent by handleProcessing in src/src/app/page.tsx
(lines 44-56): fileId, phoneColumn, stripPlus, splitFiles. -/
structure ProcessRequestBody where
  fileId : String
  phoneColumn : String
  stripPlus : Bool
  splitFiles : Bool
deriving Repr, DecidableEq

/-- The output file path generated by the process route (route.ts line 41):
always the processed id followed by the fixed suffix, independent of any
format or splitting option. -/
def outputFileName (processedFileId : String) : String :=
  processedFileId ++ "_processed.xlsx"

/-- The argument list the process route passes to spawn for the Python
script (route.ts lines 61-67).  Only the phone column and the file paths
are forwarded; the body's stripPlus and splitFiles fields are never read
(route.ts line 10 destructures only fileId and phoneColumn). -/
def spawnArgs (pythonScriptPath inputFilePath outputFilePath : String)
    (body : ProcessRequestBody) : List String :=
  [pythonScriptPath, inputFilePath,
   "--output", outputFilePath,
   "--phone-column", body.phoneColumn,
   "--json-output"]

/-- The snake_case stats object parsed from the Python script's JSON line
(route.ts lines 121-127); duplicates_removed may be absent. -/
structure PyStats where
  total_rows : Nat
  valid_numbers : Nat
  blocked_numbers : Nat
  final_rows : Nat
  blocklist_size : Nat
  processing_time : Nat
  duplicates_removed : Option Nat
deriving Repr, DecidableEq

/-- ProcessingStats from src/src/types/index.ts (lines 13-21). -/
structure ProcessingStats where
  totalRows : Nat
  validNumbers : Nat
  blockedNumbers : Nat
  finalRows : Nat
  blocklistSize : Nat
  processingTime : Nat
  duplicatesRemoved : Nat
deriving Repr, DecidableEq

/-- The stats field mapping the process route applies to the parsed JSON
(route.ts lines 120-128), including the `duplicates_removed || 0` default. -/
def routeStats (s : PyStats) : ProcessingStats :=
  ⟨s.total_rows, s.valid_numbers, s.blocked_numbers, s.final_rows,
   s.blocklist_size, s.processing_time, s.duplicates_removed.getD 0⟩

/-- A line of the Python script's standard output as the route sees it:
either it parses as a JSON stats object or it is free-form text
(JSON.parse is external; a line is modelled by its parse outcome). -/
inductive StdoutLine where
  | json (s : PyStats)
  | text (t : String)
deriving Repr, DecidableEq

/-- The route's search for the first JSON-parsable line of stdout
(route.ts lines 86-94: lines.find with a JSON.parse probe). -/
def findJsonLine : List StdoutLine → Option PyStats
  | [] => none
  | .json s :: _ => some s
  | .text _ :: rest => findJsonLine rest

/-- The success response body built by the process route (route.ts lines
118-130): success flag, mapped stats, processed file id. -/
structure ProcessSuccess where
  success : Bool
  stats : ProcessingStats
  processedFileId : String
deriving Repr, DecidableEq

/-- The route's handling of a successful (exit code 0) Python run
(route.ts lines 83-105 and 118-132): find the JSON line in stdout, map its
fields, answer with success; reject when no line parses. -/
def routeHandleStdout (stdoutLines : List StdoutLine) (processedFileId : String) :
    Except String ProcessSuccess :=
  match findJsonLine stdoutLines with
  | some s => .ok ⟨true, routeStats s, processedFileId⟩
  | none => .error "No JSON output from Python script"

/-- Modelled from the spec: the pipeline emits its stats record as a single
structured result, one line of structured data (section 6, "emitted as a
single structured result (e.g., one line of structured data)"); the
python_scripts/phone_processor_api.py emitter is absent from the sources. -/
def pipelineStdout (s : PyStats) : List StdoutLine :=
  [.json s]

/-- A failure of the process route as distinguished by its code paths. -/
inductive RouteFailure where
  | missingParams
  | uploadNotFound
  | scriptNotFound
  | pythonFailed (code : Int) (stderr : String)
  | spawnFailed (msg : String)
  | noJsonOutput
deriving Repr, DecidableEq

/-- An error response of the process route: HTTP status, success flag and
the human-readable message — the complete payload of
NextResponse.json({ success: false, error: ... }, { status: ... }). -/
structure ErrorResponse where
  status : Nat
  success : Bool
  error : String
deriving Repr, DecidableEq

/-- The error responses of the process route (route.ts lines 12-17, 32-37,
46-51, 101, 107, 112, 134-140): every rejection from the Python promise is
caught at line 134 and answered with status 500 and the error message. -/
def failureResponse : RouteFailure → ErrorResponse
  | .missingParams => ⟨400, false, "Missing fileId or phoneColumn"⟩
  | .uploadNotFound => ⟨404, false, "Uploaded file not found"⟩
  | .scriptNotFound => ⟨500, false, "Python script not found"⟩
  | .pythonFailed code stderr =>
    ⟨500, false, "Python script failed with code " ++ toString code ++
      (if stderr = "" then "" else ": " ++ stderr)⟩
  | .spawnFailed msg => ⟨500, false, "Failed to start Python process: " ++ msg⟩
  | .noJsonOutput => ⟨500, false, "No JSON output from Python script"⟩

/-- Modelled from the spec: the failure interface of the pipeline process
(section 6, "Failure: a non-zero/error termination distinguishable from
success, carrying a human-readable message") — the script terminates with a
non-zero exit code and its human-readable message on stderr; the error
kind is not a separate channel of this interface.  The script itself
(python_scripts/phone_processor_api.py) is absent from the sources. -/
def pythonTermination (_kind : ErrorKind) (message : String) : Int × String :=
  (1, message)

/-- The process route's response to a failed pipeline run of the given
error kind and message: the route sees only the exit code and stderr. -/
def routeErrorResult (kind : ErrorKind) (message : String) : ErrorResponse :=
  failureResponse (.pythonFailed (pythonTermination kind message).1
    (pythonTermination kind message).2)

/-! ## Download route (src/src/app/api/download/route.ts)

File contents are modelled as byte lists (each entry < 256) and decoded
text as code-point lists.
-/

/-- Outcome of the download route's artifact resolution (route.ts lines
20-66): a split archive, a single file of some actual format, or a 404. -/
inductive DownloadResult where
  | zipFile (path fmt : String)
  | single (path fmt : String)
  | notFound
deriving Repr, DecidableEq

/-- The download route's artifact lookup (route.ts lines 20-66):
first the split archive of the requested format, then the single file of
the requested format, then — only for an xlsx request — the CSV fallback,
else a 404.  `onDisk` is the existsSync view of the uploads directory,
paths are relative to it. -/
def resolveDownload (onDisk : String → Bool) (fileId format : String) : DownloadResult :=
  let baseFileName := fileId ++ "_processed"
  let zipPath := baseFileName ++ (if format = "csv" then "_csv.zip" else "_xlsx.zip")
  if onDisk zipPath then
    .zipFile zipPath format
  else
    let regularPath := baseFileName ++ (if format = "csv" then ".csv" else ".xlsx")
    if onDisk regularPath then
      .single regularPath format
    else if format = "xlsx" then
      if onDisk (baseFileName ++ ".csv") then
        .single (baseFileName ++ ".csv") "csv"
      else
        .notFound
    else
      .notFound

/-- Decode one UTF-8 sequence headed by byte `b` with lookahead `rest`:
returns the code point (U+FFFD on malformed input) and how many lookahead
bytes were consumed.  Models Buffer.toString of Node used at route.ts
line 92 (invalid sequences become replacement characters). -/
def utf8Step (b : Nat) (rest : List Nat) : Nat × Nat :=
  if b < 0x80 then
    (b, 0)
  else if 0xC2 ≤ b ∧ b ≤ 0xDF then
    match rest with
    | b2 :: _ =>
      if 0x80 ≤ b2 ∧ b2 ≤ 0xBF then ((b - 0xC0) * 0x40 + (b2 - 0x80), 1)
      else (0xFFFD, 0)
    | [] => (0xFFFD, 0)
  else if 0xE0 ≤ b ∧ b ≤ 0xEF then
    match rest with
    | b2 :: b3 :: _ =>
      if (0x80 ≤ b2 ∧ b2 ≤ 0xBF) ∧ (b = 0xE0 → 0xA0 ≤ b2) ∧ (b = 0xED → b2 ≤ 0x9F) then
        if 0x80 ≤ b3 ∧ b3 ≤ 0xBF then
          ((b - 0xE0) * 0x1000 + (b2 - 0x80) * 0x40 + (b3 - 0x80), 2)
        else (0xFFFD, 1)
      else (0xFFFD, 0)
    | [b2] =>
      if (0x80 ≤ b2 ∧ b2 ≤ 0xBF) ∧ (b = 0xE0 → 0xA0 ≤ b2) ∧ (b = 0xED → b2 ≤ 0x9F) then
        (0xFFFD, 1)
      else (0xFFFD, 0)
    | [] => (0xFFFD, 0)
  else if 0xF0 ≤ b ∧ b ≤ 0xF4 then
    match rest with
    | b2 :: b3 :: b4 :: _ =>
      if (0x80 ≤ b2 ∧ b2 ≤ 0xBF) ∧ (b = 0xF0 → 0x90 ≤ b2) ∧ (b = 0xF4 → b2 ≤ 0x8F) then
        if 0x80 ≤ b3 ∧ b3 ≤ 0xBF then
          if 0x80 ≤ b4 ∧ b4 ≤ 0xBF then
            ((b - 0xF0) * 0x40000 + (b2 - 0x80) * 0x1000 + (b3 - 0x80) * 0x40 + (b4 - 0x80), 3)
          else (0xFFFD, 2)
        else (0xFFFD, 1)
      else (0xFFFD, 0)
    | [b2, b3] =>
      if (0x80 ≤ b2 ∧ b2 ≤ 0xBF) ∧ (b = 0xF0 → 0x90 ≤ b2) ∧ (b = 0xF4 → b2 ≤ 0x8F) then
        if 0x80 ≤ b3 ∧ b3 ≤ 0xBF then (0xFFFD, 2) else (0xFFFD, 1)
      else (0xFFFD, 0)
    | [b2] =>
      if (0x80 ≤ b2 ∧ b2 ≤ 0xBF) ∧ (b = 0xF0 → 0x90 ≤ b2) ∧ (b = 0xF4 → b2 ≤ 0x8F) then
        (0xFFFD, 1)
      else (0xFFFD, 0)
    | [] => (0xFFFD, 0)
  else
    (0xFFFD, 0)

/-- Recursion core of the replacing UTF-8 decoder; the fuel bounds the
number of decoded sequences and every step consumes at least one byte, so
fuel equal to the byte count never runs out. -/
def utf8DecodeReplaceAux : Nat → List Nat → List Nat
  | 0, _ => []
  | _, [] => []
  | fuel + 1, b :: rest =>
    (utf8Step b rest).1 :: utf8DecodeReplaceAux fuel (rest.drop (utf8Step b rest).2)

/-- UTF-8 decoding with U+FFFD replacement of malformed sequences, the
behaviour of Buffer.toString with encoding utf-8. -/
def utf8DecodeReplace (bytes : List Nat) : List Nat :=
  utf8DecodeReplaceAux bytes.length bytes

/-- UTF-8 encoding of one code point. -/
def utf8EncodeCp (c : Nat) : List Nat :=
  if c < 0x80 then [c]
  else if c < 0x800 then
    [0xC0 + c / 0x40, 0x80 + c % 0x40]
  else if c < 0x10000 then
    [0xE0 + c / 0x1000, 0x80 + (c / 0x40) % 0x40, 0x80 + c % 0x40]
  else
    [0xF0 + c / 0x40000, 0x80 + (c / 0x1000) % 0x40, 0x80 + (c / 0x40) % 0x40, 0x80 + c % 0x40]

/-- UTF-8 encoding of a code-point sequence; its length is the byte length
Buffer.byteLength computes for a string (route.ts line 102). -/
def utf8Encode (cps : List Nat) : List Nat :=
  cps.flatMap utf8EncodeCp

/-- First pass of route.ts line 95: the replace of every CRLF pair
(code points 13, 10) by LF, scanning left to right. -/
def replaceCRLF : List Nat → List Nat
  | [] => []
  | [c] => [c]
  | c :: c2 :: rest =>
    if c = 13 ∧ c2 = 10 then 10 :: replaceCRLF rest
    else c :: replaceCRLF (c2 :: rest)

/-- Second pass of route.ts line 95: the replace of every remaining CR by
LF. -/
def replaceCR (l : List Nat) : List Nat :=
  l.map (fun c => if c = 13 then 10 else c)

/-- The newline normalization of route.ts line 95, both passes. -/
def normalizeNewlines (l : List Nat) : List Nat :=
  replaceCR (replaceCRLF l)

/-- Claim-side definition: replace every CRLF pair and every lone CR by a
single LF, in one pass over the text. -/
def crlfToLF : List Nat → List Nat
  | [] => []
  | [c] => [if c = 13 then 10 else c]
  | c :: c2 :: rest =>
    if c = 13 ∧ c2 = 10 then 10 :: crlfToLF rest
    else (if c = 13 then 10 else c) :: crlfToLF (c2 :: rest)

/-- The HTTP response of the download route's serving phase: status, body
bytes, content type and the Content-Length header value. -/
structure FileResponse where
  status : Nat
  bodyBytes : List Nat
  contentType : String
  contentLength : Nat
deriving Repr, DecidableEq

/-- The serving phase of the download route (route.ts lines 68-123): ZIP
archives and Excel files are served as the stored bytes with their size as
Content-Length; CSV is decoded as UTF-8, newline-normalized, and served as
that string with its UTF-8 byte length as Content-Length. -/
def serveDownload (fileBytes : List Nat) (isZipFile : Bool) (actualFormat : String) :
    FileResponse :=
  if isZipFile then
    ⟨200, fileBytes, "application/zip", fileBytes.length⟩
  else if actualFormat = "csv" then
    let content := normalizeNewlines (utf8DecodeReplace fileBytes)
    ⟨200, utf8Encode content, "text/csv; charset=utf-8", (utf8Encode content).length⟩
  else
    ⟨200, fileBytes,
     "application/vnd.openxmlformats-officedocument.spreadsheetml.sheet",
     fileBytes.length⟩

/-- The two sequential replaces of the route equal the claim's single-pass
normalization of CRLF and lone CR to LF. -/
theorem replaceCR_replaceCRLF : ∀ l, replaceCR (replaceCRLF l) = crlfToLF l
  | [] => rfl
  | [c] => by simp [replaceCRLF, crlfToLF, replaceCR]
  | c :: c2 :: rest => by
    by_cases h : c = 13 ∧ c2 = 10
    · have ih := replaceCR_replaceCRLF rest
      simp only [replaceCRLF, crlfToLF, if_pos h, replaceCR, List.map_cons] at ih ⊢
      simp [ih]
    · have ih := replaceCR_replaceCRLF (c2 :: rest)
      simp only [replaceCRLF, crlfToLF, if_neg h, replaceCR, List.map_cons] at ih ⊢
      simp [ih]
termination_by l => l.length

/-! ## Upload route (src/src/app/api/upload/route.ts) -/

/-- removeBOM (upload route.ts lines 15-39): strip a UTF-8, UTF-16 LE or
UTF-16 BE byte-order mark from the front of the byte buffer. -/
def removeBOM : List Nat → List Nat
  | 0xEF :: 0xBB :: 0xBF :: rest => rest
  | 0xFF :: 0xFE :: rest => rest
  | 0xFE :: 0xFF :: rest => rest
  | buffer => buffer

/-- The strip of one remaining leading U+FEFF character from the decoded
string (upload route.ts line 47). -/
def stripLeadingFEFF : List Nat → List Nat
  | 0xFEFF :: rest => rest
  | cps => cps

/-- The decoded text parseCSVSafely hands to every parsing strategy
(upload route.ts lines 42-47): the BOM-stripped bytes decoded as UTF-8
exactly once — Buffer.toString with replacement of invalid bytes — and a
leading U+FEFF removed.  No other text encoding is ever tried. -/
def uploadDecodedContent (buffer : List Nat) : List Nat :=
  stripLeadingFEFF (utf8DecodeReplace (removeBOM buffer))

/-- One csv-parse option set (upload route.ts lines 50-78); quote false
models the disabled quote handling of the third strategy. -/
structure ParseStrategy where
  columns : Bool
  skipEmptyLines : Bool
  trim : Bool
  quote : Bool
  escape : Bool
  relaxQuotes : Bool
  relaxColumnCount : Bool
deriving Repr, DecidableEq

/-- The three parsing strategies of parseCSVSafely: standard, relaxed,
very permissive (upload route.ts lines 50-78). -/
def strategies : List ParseStrategy :=
  [⟨true, true, true, true, true, false, false⟩,
   ⟨true, true, true, true, true, true, true⟩,
   ⟨true, true, true, false, false, true, true⟩]

/-- A parsed CSV row: ordered column-name/value pairs. -/
abbrev Row := List (String × String)

/-- The strategy loop of parseCSVSafely (upload route.ts lines 80-90):
each strategy is tried on the same decoded content; the first parse whose
data is nonempty and whose first row has at least one column is returned;
a throwing parse (none) falls through to the next strategy.  The external
csv-parse library function is a parameter. -/
def tryStrategies (parse : ParseStrategy → List Nat → Option (List Row)) :
    List ParseStrategy → List Nat → Option (List Row)
  | [], _ => none
  | st :: rest, content =>
    match parse st content with
    | some data =>
      if data.length > 0 ∧ (data.headD []).length > 0 then some data
      else tryStrategies parse rest content
    | none => tryStrategies parse rest content

/-- parseCSVSafely (upload route.ts lines 41-93): decode the buffer once,
try the three strategies in order, none succeeding models the
"All CSV parsing strategies failed" throw. -/
def parseCSVSafely (parse : ParseStrategy → List Nat → Option (List Row))
    (buffer : List Nat) : Option (List Row) :=
  tryStrategies parse strategies (uploadDecodedContent buffer)

/-- The CSV branch of the upload POST handler (upload route.ts lines
142-154): the parsed rows on success, a 400 error response carrying the
parsing-failure message when parseCSVSafely throws. -/
def uploadCSVOutcome (parse : ParseStrategy → List Nat → Option (List Row))
    (buffer : List Nat) : Except ErrorResponse (List Row) :=
  match parseCSVSafely parse buffer with
  | some data => .ok data
  | none => .error ⟨400, false,
      "CSV parsing failed: All CSV parsing strategies failed"⟩

/-- allowedTypes of the upload POST handler (upload route.ts lines
108-113). -/
def allowedTypes : List String :=
  ["application/vnd.openxmlformats-officedocument.spreadsheetml.sheet",
   "application/vnd.ms-excel",
   "text/csv",
   "application/csv"]

/-- The file-type gate of the upload POST handler (upload route.ts lines
115-120): reject with 400 "Invalid file type" unless the client MIME type
is one of the allowed types or the lowercased file name ends in ".csv". -/
def uploadTypeCheck (fileType fileName : String) : Option ErrorResponse :=
  if !(allowedTypes.contains fileType) &&
      !(List.isSuffixOf ['.', 'c', 's', 'v'] (fileName.data.map Char.toLower)) then
    some ⟨400, false, "Invalid file type"⟩
  else
    none

/-! ### Claim-side text encodings (for the claimed re-decoding fallback) -/

/-- Recursion core of the strict UTF-8 decoder, fueled like the replacing
decoder. -/
def utf8DecodeStrictAux : Nat → List Nat → Option (List Nat)
  | 0, _ => some []
  | _, [] => some []
  | fuel + 1, b :: rest =>
    if b < 0x80 then
      (utf8DecodeStrictAux fuel rest).map (b :: ·)
    else if 0xC2 ≤ b ∧ b ≤ 0xDF then
      match rest with
      | b2 :: r2 =>
        if 0x80 ≤ b2 ∧ b2 ≤ 0xBF then
          (utf8DecodeStrictAux fuel r2).map (((b - 0xC0) * 0x40 + (b2 - 0x80)) :: ·)
        else none
      | [] => none
    else if 0xE0 ≤ b ∧ b ≤ 0xEF then
      match rest with
      | b2 :: b3 :: r3 =>
        if ((0x80 ≤ b2 ∧ b2 ≤ 0xBF) ∧ (b = 0xE0 → 0xA0 ≤ b2) ∧ (b = 0xED → b2 ≤ 0x9F)) ∧
            (0x80 ≤ b3 ∧ b3 ≤ 0xBF) then
          (utf8DecodeStrictAux fuel r3).map
            (((b - 0xE0) * 0x1000 + (b2 - 0x80) * 0x40 + (b3 - 0x80)) :: ·)
        else none
      | _ => none
    else if 0xF0 ≤ b ∧ b ≤ 0xF4 then
      match rest with
      | b2 :: b3 :: b4 :: r4 =>
        if ((0x80 ≤ b2 ∧ b2 ≤ 0xBF) ∧ (b = 0xF0 → 0x90 ≤ b2) ∧ (b = 0xF4 → b2 ≤ 0x8F)) ∧
            (0x80 ≤ b3 ∧ b3 ≤ 0xBF) ∧ (0x80 ≤ b4 ∧ b4 ≤ 0xBF) then
          (utf8DecodeStrictAux fuel r4).map
            (((b - 0xF0) * 0x40000 + (b2 - 0x80) * 0x1000 +
              (b3 - 0x80) * 0x40 + (b4 - 0x80)) :: ·)
        else none
      | _ => none
    else none

/-- Claim-side: strict UTF-8 decoding, failing on any malformed byte
sequence. -/
def utf8DecodeStrict (bytes : List Nat) : Option (List Nat) :=
  utf8DecodeStrictAux bytes.length bytes

/-- Claim-side: strip a UTF-8 byte-order mark ("UTF-8 with byte-order
marker"). -/
def stripUtf8BOM : List Nat → List Nat
  | 0xEF :: 0xBB :: 0xBF :: rest => rest
  | bytes => bytes

/-- Claim-side: Latin-1 decoding — every byte is its own code point,
always succeeds. -/
def latin1Decode (bytes : List Nat) : List Nat :=
  bytes

/-- Claim-side: the Windows-1252 mapping of one byte (the 0x80-0x9F block
remapped, all other bytes as in Latin-1). -/
def cp1252Map (b : Nat) : Nat :=
  if b = 0x80 then 0x20AC else if b = 0x82 then 0x201A
  else if b = 0x83 then 0x192 else if b = 0x84 then 0x201E
  else if b = 0x85 then 0x2026 else if b = 0x86 then 0x2020
  else if b = 0x87 then 0x2021 else if b = 0x88 then 0x2C6
  else if b = 0x89 then 0x2030 else if b = 0x8A then 0x160
  else if b = 0x8B then 0x2039 else if b = 0x8C then 0x152
  else if b = 0x8E then 0x17D else if b = 0x91 then 0x2018
  else if b = 0x92 then 0x2019 else if b = 0x93 then 0x201C
  else if b = 0x94 then 0x201D else if b = 0x95 then 0x2022
  else if b = 0x96 then 0x2013 else if b = 0x97 then 0x2014
  else if b = 0x98 then 0x2DC else if b = 0x99 then 0x2122
  else if b = 0x9A then 0x161 else if b = 0x9B then 0x203A
  else if b = 0x9C then 0x153 else if b = 0x9E then 0x17E
  else if b = 0x9F then 0x178 else b

/-- Claim-side: Windows-1252 decoding, always succeeds. -/
def cp1252Decode (bytes : List Nat) : List Nat :=
  bytes.map cp1252Map

/-- Claim-side: the first successful decoder of a prioritized list. -/
def firstSuccess : List (List Nat → Option (List Nat)) → List Nat → Option (List Nat)
  | [], _ => none
  | d :: rest, bytes =>
    match d bytes with
    | some cps => some cps
    | none => firstSuccess rest bytes

/-- Claim-side: the claimed prioritized re-decoding — UTF-8 with
byte-order marker, then Latin-1, then the Windows code page, falling
through the list until one succeeds. -/
def claimEncodingDecode (bytes : List Nat) : Option (List Nat) :=
  firstSuccess
    [fun b => utf8DecodeStrict (stripUtf8BOM b),
     fun b => some (latin1Decode b),
     fun b => some (cp1252Decode b)]
    bytes

/-! ## Helper lemmas for the stats invariant -/

theorem dedupeRows_length (pvs : List PhoneValue) :
    ∀ seen, (dedupeRows pvs seen).1.length + (dedupeRows pvs seen).2 = pvs.length := by
  induction pvs with
  | nil => intro seen; simp [dedupeRows]
  | cons pv rest ih =>
    intro seen
    cases hc : pv.canonical with
    | none =>
      simp only [dedupeRows, hc, List.length_cons]
      have := ih seen
      omega
    | some c =>
      by_cases hs : c ∈ seen
      · simp only [dedupeRows, hc, if_pos hs, List.length_cons]
        have := ih seen
        omega
      · simp only [dedupeRows, hc, if_neg hs, List.length_cons]
        have := ih (c :: seen)
        omega

theorem length_filter_not_add (l : List PhoneValue) (p : PhoneValue → Bool) :
    (l.filter p).length + (l.filter (fun x => !p x)).length = l.length := by
  induction l with
  | nil => simp
  | cons x xs ih =>
    cases hx : p x with
    | true => simp [List.filter_cons, hx]; omega
    | false => simp [List.filter_cons, hx]; omega

/-- When every strategy's parse yields no usable data, the strategy loop
returns none. -/
theorem tryStrategies_none (parse : ParseStrategy → List Nat → Option (List Row))
    (content : List Nat) :
    ∀ sts, (∀ st ∈ sts, ∀ data, parse st content = some data →
        ¬(data.length > 0 ∧ (data.headD []).length > 0)) →
      tryStrategies parse sts content = none := by
  intro sts
  induction sts with
  | nil => intro _; rfl
  | cons st rest ih =>
    intro h
    simp only [tryStrategies]
    cases hp : parse st content with
    | none => exact ih (fun s hs => h s (List.mem_cons_of_mem _ hs))
    | some data =>
      have hbad := h st (List.mem_cons_self _ _) data hp
      have hrest := ih (fun s hs => h s (List.mem_cons_of_mem _ hs))
      show (if data.length > 0 ∧ (data.headD []).length > 0 then some data
        else tryStrategies parse rest content) = none
      rw [if_neg hbad]
      exact hrest

/-- A lowercased file name built with the extension ".csv" ends in the
four characters of ".csv". -/
theorem toLower_suffix_csv (base : String) :
    ['.', 'c', 's', 'v'] <:+ (base ++ ".csv").data.map Char.toLower := by
  rw [String.data_append, List.map_append,
    show ".csv".data.map Char.toLower = ['.', 'c', 's', 'v'] from by decide]
  exact List.suffix_append _ _

/-- A list whose last element differs from 'v' does not end in the four
characters of ".csv". -/
theorem csv_not_suffix_of_getLast (big : List Char) (c : Char)
    (hc : big.getLast? = some c) (hv : c ≠ 'v') :
    ¬ (['.', 'c', 's', 'v'] <:+ big) := by
  intro h
  obtain ⟨t, ht⟩ := h
  rw [← ht, List.getLast?_append,
    show (['.', 'c', 's', 'v'] : List Char).getLast? = some 'v' from by decide] at hc
  simp at hc
  exact hv hc.symm

/-- C1: running the pipeline on the four rows "+40723456789", "0723456789",
"723456789", "abc" against the blocklist ["40723456789"] canonicalizes the
three numeric rows to "+40723456789", removes 2 duplicates, blocks the
remaining one, keeps the invalid row "abc", and yields stats totalRows=4,
validNumbers=3, duplicatesRemoved=2, blockedNumbers=1, finalRows=1
(stats fields in order: totalRows, validNumbers, blockedNumbers, finalRows,
blocklistSize, duplicatesRemoved). -/
theorem C1_scenario :
    (normalizePhone "+40723456789").canonical = some "+40723456789" ∧
    (normalizePhone "0723456789").canonical = some "+40723456789" ∧
    (normalizePhone "723456789").canonical = some "+40723456789" ∧
    (normalizePhone "abc") = ⟨"abc", none, false⟩ ∧
    (runPipeline ["+40723456789", "0723456789", "723456789", "abc"]
      ["40723456789"]).2 = [⟨"abc", none, false⟩] ∧
    (runPipeline ["+40723456789", "0723456789", "723456789", "abc"]
      ["40723456789"]).1 = ⟨4, 3, 1, 1, 1, 2⟩ := by
  decide

/-- C2: for every input on which a processing job completes, the stats
record satisfies finalRows = totalRows - blockedNumbers - duplicatesRemoved. -/
theorem C2_stats_invariant (rows blocklistEntries : List String) :
    (runPipeline rows blocklistEntries).1.finalRows =
      (runPipeline rows blocklistEntries).1.totalRows -
        (runPipeline rows blocklistEntries).1.blockedNumbers -
        (runPipeline rows blocklistEntries).1.duplicatesRemoved := by
  simp only [runPipeline]
  have hded := dedupeRows_length (rows.map normalizePhone) []
  have hfil := length_filter_not_add
    (dedupeRows (rows.map normalizePhone) []).1
    (fun pv => isBlocked (buildBlocklist blocklistEntries) pv)
  simp only [List.length_map] at hded ⊢
  omega

/-- C3 (code evidence): the process route ignores the splitFiles option —
the spawn invocation of the processing script is identical for
splitFiles=true and splitFiles=false (the body's option fields are never
forwarded), and the output path is always the single file
`<id>_processed.xlsx`, so no split archive can be produced. -/
theorem C3_splitFiles_dropped (script input pid fileId column : String) (sp : Bool) :
    spawnArgs script input (outputFileName pid) ⟨fileId, column, sp, true⟩ =
      spawnArgs script input (outputFileName pid) ⟨fileId, column, sp, false⟩ ∧
    outputFileName pid = pid ++ "_processed.xlsx" :=
  ⟨rfl, rfl⟩

/-- C4: when the blocklist fetch fails the whole job terminates with error
kind BlocklistUnavailable, no filtering is performed and no output
artifact exists. -/
theorem C4_blocklist_unavailable (msg : String) (rows : List String) :
    runJob (.error msg) rows = .error .blocklistUnavailable ∧
    jobArtifact (runJob (.error msg) rows) = none :=
  ⟨rfl, rfl⟩

/-- C5: the download route serves the split archive of the requested
format when it exists, otherwise the single file matching the requested
format, falls back from xlsx to the CSV file when the xlsx artifacts are
absent, and answers not-found when no candidate exists. -/
theorem C5_download_resolution (onDisk : String → Bool) (fileId format : String)
    (hf : format = "csv" ∨ format = "xlsx") :
    (onDisk (fileId ++ "_processed" ++
        (if format = "csv" then "_csv.zip" else "_xlsx.zip")) = true →
      resolveDownload onDisk fileId format =
        .zipFile (fileId ++ "_processed" ++
          (if format = "csv" then "_csv.zip" else "_xlsx.zip")) format) ∧
    (onDisk (fileId ++ "_processed" ++
        (if format = "csv" then "_csv.zip" else "_xlsx.zip")) = false →
      onDisk (fileId ++ "_processed" ++
        (if format = "csv" then ".csv" else ".xlsx")) = true →
      resolveDownload onDisk fileId format =
        .single (fileId ++ "_processed" ++
          (if format = "csv" then ".csv" else ".xlsx")) format) ∧
    (format = "xlsx" →
      onDisk (fileId ++ "_processed" ++ "_xlsx.zip") = false →
      onDisk (fileId ++ "_processed" ++ ".xlsx") = false →
      onDisk (fileId ++ "_processed" ++ ".csv") = true →
      resolveDownload onDisk fileId format =
        .single (fileId ++ "_processed" ++ ".csv") "csv") ∧
    (onDisk (fileId ++ "_processed" ++
        (if format = "csv" then "_csv.zip" else "_xlsx.zip")) = false →
      onDisk (fileId ++ "_processed" ++
        (if format = "csv" then ".csv" else ".xlsx")) = false →
      onDisk (fileId ++ "_processed" ++ ".csv") = false →
      resolveDownload onDisk fileId format = .notFound) := by
  rcases hf with hf | hf <;> subst hf
  · refine ⟨fun h1 => ?_, fun h1 h2 => ?_, fun hx => ?_, fun h1 h2 h3 => ?_⟩
    · simp_all [resolveDownload]
    · simp_all [resolveDownload]
    · exact absurd hx (by decide)
    · simp_all [resolveDownload]
  · refine ⟨fun h1 => ?_, fun h1 h2 => ?_, fun hx h1 h2 h3 => ?_, fun h1 h2 h3 => ?_⟩
    · simp_all [resolveDownload]
    · simp_all [resolveDownload]
    · simp_all [resolveDownload]
    · simp_all [resolveDownload]

/-- Witness for C5 at concrete inputs: a directory holding exactly the
split CSV archive serves that archive; an empty directory answers
not-found. -/
theorem C5_download_resolution_w :
    resolveDownload (fun s => s == "f_processed_csv.zip") "f" "csv" =
      .zipFile ("f" ++ "_processed" ++ "_csv.zip") "csv" ∧
    resolveDownload (fun _ => false) "f" "xlsx" = .notFound := by
  constructor
  · exact (C5_download_resolution (fun s => s == "f_processed_csv.zip") "f" "csv"
      (Or.inl rfl)).1 (by decide)
  · exact (C5_download_resolution (fun _ => false) "f" "xlsx"
      (Or.inr rfl)).2.2.2 rfl rfl rfl

/-- C9: a download resolving to a single CSV artifact is served as the
stored bytes decoded as UTF-8 with every CRLF and every lone CR replaced
by LF, with Content-Length the UTF-8 byte length of that normalized
content; ZIP archives and XLSX files are served byte-for-byte unchanged. -/
theorem C9_download_serving (bytes : List Nat) (fmt : String) :
    (serveDownload bytes false "csv").bodyBytes =
      utf8Encode (crlfToLF (utf8DecodeReplace bytes)) ∧
    (serveDownload bytes false "csv").contentLength =
      (utf8Encode (crlfToLF (utf8DecodeReplace bytes))).length ∧
    (serveDownload bytes true fmt).bodyBytes = bytes ∧
    (serveDownload bytes true fmt).contentLength = bytes.length ∧
    (serveDownload bytes false "xlsx").bodyBytes = bytes ∧
    (serveDownload bytes false "xlsx").contentLength = bytes.length := by
  refine ⟨?_, ?_, rfl, rfl, ?_, ?_⟩ <;>
    simp [serveDownload, normalizeNewlines, replaceCR_replaceCRLF]

/-- C7 (counterexample): the error result returned by the process route
carries no stable error kind — two pipeline failures of distinct kinds
(blocklist fetch failure, disk write failure) with the same message
produce identical responses, so no function of the response can
distinguish them. -/
theorem C7_no_stable_kind :
    routeErrorResult .blocklistUnavailable "processing failed" =
      routeErrorResult .writeFailure "processing failed" ∧
    ErrorKind.blocklistUnavailable ≠ ErrorKind.writeFailure := by
  exact ⟨rfl, by decide⟩

/-- C7 (amended): every failure response of the process route is
distinguishable from success (success flag false, HTTP status at least
400) and carries a human-readable message, but pipeline failures are
answered independently of the error kind: the route's response is the same
for every kind with the same message, so only the free-form message text —
not a stable kind — separates a blocklist failure from a disk failure. -/
theorem C7_failure_responses (f : RouteFailure) (k k2 : ErrorKind) (m : String) :
    (failureResponse f).success = false ∧
    400 ≤ (failureResponse f).status ∧
    routeErrorResult k m = routeErrorResult k2 m := by
  refine ⟨?_, ?_, rfl⟩ <;> cases f <;> simp [failureResponse]

/-- C6 (counterexample): a Latin-1 CSV byte buffer holding the byte 0xE9
(the character é).  The claimed prioritized re-decoding fails strict UTF-8
and falls back to Latin-1, recovering the é code point; the upload route
instead decodes exactly once as UTF-8 with replacement, so every parsing
strategy receives U+FFFD where the é was — the recovered content the claim
promises is never produced. -/
theorem C6_no_encoding_fallback :
    claimEncodingDecode [0x63, 0x6F, 0x6C, 0x0A, 0x76, 0xE9] =
      some [0x63, 0x6F, 0x6C, 0x0A, 0x76, 0xE9] ∧
    uploadDecodedContent [0x63, 0x6F, 0x6C, 0x0A, 0x76, 0xE9] =
      [0x63, 0x6F, 0x6C, 0x0A, 0x76, 0xFFFD] ∧
    uploadDecodedContent [0x63, 0x6F, 0x6C, 0x0A, 0x76, 0xE9] ≠
      (claimEncodingDecode [0x63, 0x6F, 0x6C, 0x0A, 0x76, 0xE9]).getD [] := by
  decide

/-- C6 (amended): the upload's CSV recovery decodes the buffer exactly
once (UTF-8 with replacement, BOM stripped) and retries with a prioritized
list of three parser strategies over that one decoding; if no strategy
yields usable rows the upload answers 400 with the parsing-failed message,
and a first-strategy success returns its rows. -/
theorem C6_strategy_fallback (parse : ParseStrategy → List Nat → Option (List Row))
    (buffer : List Nat) :
    ((∀ st ∈ strategies, ∀ data, parse st (uploadDecodedContent buffer) = some data →
        ¬(data.length > 0 ∧ (data.headD []).length > 0)) →
      uploadCSVOutcome parse buffer =
        .error ⟨400, false, "CSV parsing failed: All CSV parsing strategies failed"⟩) ∧
    (∀ data, parse ⟨true, true, true, true, true, false, false⟩
        (uploadDecodedContent buffer) = some data →
      data.length > 0 ∧ (data.headD []).length > 0 →
      uploadCSVOutcome parse buffer = .ok data) := by
  constructor
  · intro h
    have hnone : parseCSVSafely parse buffer = none :=
      tryStrategies_none parse (uploadDecodedContent buffer) strategies h
    simp [uploadCSVOutcome, hnone]
  · intro data hp hgood
    have hsome : parseCSVSafely parse buffer = some data := by
      unfold parseCSVSafely strategies
      simp only [tryStrategies, hp, if_pos hgood]
    simp [uploadCSVOutcome, hsome]

/-- Witness for C6 at concrete inputs: a parse that always throws makes
the upload answer the 400 parsing-failed error; a parse that succeeds on
the first strategy returns its rows. -/
theorem C6_strategy_fallback_w :
    uploadCSVOutcome (fun _ _ => none) [] =
      .error ⟨400, false, "CSV parsing failed: All CSV parsing strategies failed"⟩ ∧
    uploadCSVOutcome (fun _ _ => some [[("a", "1")]]) [] = .ok [[("a", "1")]] := by
  constructor
  · exact (C6_strategy_fallback (fun _ _ => none) []).1
      (by intro st _ data h; exact Option.noConfusion h)
  · exact (C6_strategy_fallback (fun _ _ => some [[("a", "1")]]) []).2
      [[("a", "1")]] rfl (by simp)

/-- C10: the upload endpoint rejects a file with 400 "Invalid file type"
iff its MIME type is none of the four allowed types and its name does not
end in ".csv" case-insensitively; any ".csv" name is accepted regardless
of MIME type, while ".xlsx" and ".xls" names are accepted exactly when the
MIME type is allowed. -/
theorem C10_upload_type_gate (fileType fileName base : String) :
    (uploadTypeCheck fileType fileName = some ⟨400, false, "Invalid file type"⟩ ↔
      fileType ∉ allowedTypes ∧
        ¬ (['.', 'c', 's', 'v'] <:+ fileName.data.map Char.toLower)) ∧
    uploadTypeCheck fileType (base ++ ".csv") = none ∧
    (uploadTypeCheck fileType (base ++ ".xlsx") = none ↔ fileType ∈ allowedTypes) ∧
    (uploadTypeCheck fileType (base ++ ".xls") = none ↔ fileType ∈ allowedTypes) := by
  have hxlsx : ¬ (['.', 'c', 's', 'v'] <:+ (base ++ ".xlsx").data.map Char.toLower) := by
    refine csv_not_suffix_of_getLast _ 'x' ?_ (by decide)
    rw [String.data_append, List.map_append, List.getLast?_append,
      show (".xlsx".data.map Char.toLower).getLast? = some 'x' from by decide]
    rfl
  have hxls : ¬ (['.', 'c', 's', 'v'] <:+ (base ++ ".xls").data.map Char.toLower) := by
    refine csv_not_suffix_of_getLast _ 's' ?_ (by decide)
    rw [String.data_append, List.map_append, List.getLast?_append,
      show (".xls".data.map Char.toLower).getLast? = some 's' from by decide]
    rfl
  simp only [String.data_append, List.map_append] at hxlsx hxls
  rw [show List.map Char.toLower ['.', 'x', 'l', 's', 'x'] = ['.', 'x', 'l', 's', 'x']
    from by decide] at hxlsx
  rw [show List.map Char.toLower ['.', 'x', 'l', 's'] = ['.', 'x', 'l', 's']
    from by decide] at hxls
  refine ⟨?_, ?_, ?_, ?_⟩
  · by_cases hm : fileType ∈ allowedTypes <;>
      by_cases hs : ['.', 'c', 's', 'v'] <:+ fileName.data.map Char.toLower <;>
        simp [uploadTypeCheck, List.contains, hm, hs, List.isSuffixOf_iff_suffix]
  · simp [uploadTypeCheck, List.isSuffixOf_iff_suffix, toLower_suffix_csv base]
  · by_cases hm : fileType ∈ allowedTypes <;>
      simp [uploadTypeCheck, List.contains, hm, hxlsx, List.isSuffixOf_iff_suffix]
  · by_cases hm : fileType ∈ allowedTypes <;>
      simp [uploadTypeCheck, List.contains, hm, hxls, List.isSuffixOf_iff_suffix]

/-- Witness for C10 at concrete inputs: a ".csv" name passes with a
disallowed MIME type; an ".xlsx" name passes with an allowed MIME type. -/
theorem C10_upload_type_gate_w :
    uploadTypeCheck "text/plain" ("contacts" ++ ".csv") = none ∧
    uploadTypeCheck "text/csv" ("report" ++ ".xlsx") = none := by
  refine ⟨(C10_upload_type_gate "text/plain" "x" "contacts").2.1, ?_⟩
  exact ((C10_upload_type_gate "text/csv" "x" "report").2.2.1).mpr (by decide)

/-- C8: the pipeline emits its stats as one line of structured data and
the process route obtains the stats by parsing that single line, mapping
the snake_case fields to the ProcessingStats record it returns. -/
theorem C8_single_structured_result (s : PyStats) (pid : String) :
    routeHandleStdout (pipelineStdout s) pid =
      .ok ⟨true,
        ⟨s.total_rows, s.valid_numbers, s.blocked_numbers, s.final_rows,
         s.blocklist_size, s.processing_time, s.duplicates_removed.getD 0⟩,
        pid⟩ :=
  rfl

end PBP
